import Mathlib

/-!
Shallow embedding of the compliance evaluation and aggregation engine of
the `test_surveillance` monitoring system, together with proofs checking
the natural-language specification against the code.

Sources embedded:
- `app/core/time_utils.py` (2.plan.md): `is_time_in_range`,
  `find_matching_schedule_rule`;
- `app/services/level_validator.py` (2.plan.md): `get_expected_level`,
  `get_declared_level_from_heartbeat`, `update_level_status_for_component`;
- `app/services/file_checker.py` (2.plan.md): `check_file_compliance`,
  `update_file_status_for_component`;
- `app/api/status.py` (2.plan.md): `calculate_heartbeat_status`
  (body modelled from the spec, see its doc comment);
- `src/components/StatusBoard.vue`: `getOverallHealthClass`,
  `getOverallHealthText`, `healthyCount`, `warningCount`, `criticalCount`,
  `updateHistoryData`.

Times of day ("HH:MM") are minutes after midnight as `Nat`; instants
(file modification times, heartbeat timestamps) are seconds as `Int`.
-/

namespace Surveillance

/-! ## time_utils: is_time_in_range -/

/-- `is_time_in_range(check_time, start_time, end_time)` from
`app/core/time_utils.py`: if `start_time <= end_time` the window is within
one day, otherwise it crosses midnight. Times are minutes after midnight. -/
def is_time_in_range (check_time start_time end_time : Nat) : Bool :=
  if start_time ≤ end_time then
    decide (start_time ≤ check_time ∧ check_time ≤ end_time)
  else
    decide (check_time ≥ start_time ∨ check_time ≤ end_time)

/-! ## Level schedule rules -/

/-- One entry of `level_schedule.yaml`: a time window with an expected
capability level and an optional rule name. -/
structure LevelRule where
  start_time : Nat
  end_time : Nat
  expected_level : Nat
  name : Option String
deriving Repr, DecidableEq

/-- Whether `current_time` falls in the window of `rule`, as tested inside
`find_matching_schedule_rule`. -/
def rule_matches (rule : LevelRule) (current_time : Nat) : Bool :=
  is_time_in_range current_time rule.start_time rule.end_time

/-- `find_matching_schedule_rule(rules, current_time)` from
`app/core/time_utils.py`: walk the rule list in declaration order and
return the first rule whose window contains `current_time`, or none. -/
def find_matching_schedule_rule (rules : List LevelRule) (current_time : Nat) :
    Option LevelRule :=
  match rules with
  | [] => none
  | rule :: rest =>
    if rule_matches rule current_time then some rule
    else find_matching_schedule_rule rest current_time

/-- Per-component section of `level_schedule.yaml`: an ordered rule list
plus the fallback level used when no rule matches. -/
structure LevelComponentConfig where
  rules : List LevelRule
  non_trading_day_level : Nat
deriving Repr, DecidableEq

/-- `get_expected_level(component_config, current_time)` from
`app/services/level_validator.py`: the matched rule's level and name, or
`(non_trading_day_level, none)` when no rule matches. -/
def get_expected_level (component_config : LevelComponentConfig)
    (current_time : Nat) : Nat × Option String :=
  match find_matching_schedule_rule component_config.rules current_time with
  | some rule => (rule.expected_level, rule.name)
  | none => (component_config.non_trading_day_level, none)

/-! ## Heartbeat records and level compliance -/

/-- The heartbeat JSON stored under `heartbeat:{component_id}`
(`app/models/heartbeat.py`). `observed_at` is the signal's own timestamp
in seconds. -/
structure HeartbeatData where
  component_id : String
  process_exists : Bool
  observed_at : Int
  declared_level : Option Nat
deriving Repr, DecidableEq

/-- `get_declared_level_from_heartbeat` from
`app/services/level_validator.py`: the `declared_level` field of the
component's heartbeat record, or none when no record exists. -/
def get_declared_level_from_heartbeat (heartbeat_data : Option HeartbeatData) :
    Option Nat :=
  match heartbeat_data with
  | some hb => hb.declared_level
  | none => none

/-- The level JSON stored under `level_status:{component_id}`
(`app/models/status.py`, `LevelStatus`), minus the timestamp field. -/
structure LevelStatus where
  component_id : String
  expected_level : Nat
  observed_level : Nat
  declared_level : Option Nat
  compliant : Bool
  schedule_rule : Option String
deriving Repr, DecidableEq

/-- `update_level_status_for_component` from
`app/services/level_validator.py`: compute the expected level for now,
take `observed_level = declared_level` (0 when unreported) and set
`compliant = (observed_level == expected_level)`. -/
def update_level_status_for_component (component_id : String)
    (component_config : LevelComponentConfig)
    (heartbeat_data : Option HeartbeatData) (current_time : Nat) :
    LevelStatus :=
  let expected := get_expected_level component_config current_time
  let declared_level := get_declared_level_from_heartbeat heartbeat_data
  let observed_level := match declared_level with
    | some lvl => lvl
    | none => 0
  { component_id := component_id
    expected_level := expected.1
    observed_level := observed_level
    declared_level := declared_level
    compliant := observed_level == expected.1
    schedule_rule := expected.2 }

/-! ## Heartbeat classification -/

/-- The heartbeat classification values of `app/api/status.py`
(`HeartbeatStatus.status`: healthy / warning / critical / offline). -/
inductive HeartbeatClass where
  | healthy
  | warning
  | critical
  | offline
deriving Repr, DecidableEq

/-- Modelled from the spec: the body of `calculate_heartbeat_status` in
`app/api/status.py` is absent from the repository (its pseudocode defers
to "the design document's status computation logic"); §4.2 of the spec
gives that logic. Let Δ = now − observed_at: no record → offline;
`process_exists == false` → critical regardless of Δ; Δ ≤ nominal_interval
→ healthy; nominal_interval < Δ ≤ 2×nominal_interval → warning;
Δ > 2×nominal_interval → critical. -/
def calculate_heartbeat_status (heartbeat_data : Option HeartbeatData)
    (now nominal_interval : Int) : HeartbeatClass :=
  match heartbeat_data with
  | none => .offline
  | some hb =>
    if hb.process_exists = false then .critical
    else
      let delta := now - hb.observed_at
      if delta ≤ nominal_interval then .healthy
      else if delta ≤ 2 * nominal_interval then .warning
      else .critical

/-! ## File freshness checking -/

/-- One file entry of `file_monitor_plan.yaml`: a path, a minute-step cron
expression `*/step * * * *` (the only shape the shipped configs use), and
a grace period in seconds. -/
structure FileSpec where
  path : String
  cron_step_minutes : Nat
  grace_period_sec : Nat
deriving Repr, DecidableEq

/-- Modelled from the spec: the croniter calls of `check_file_compliance`
in `app/services/file_checker.py` are pseudocode; §4.1 of the spec defines
`last_due_before(cron_expression, reference_time)` as the latest trigger
instant at or before `reference_time`. For a minute-step rule the triggers
are the multiples of `step` minutes, so this is `now` floored to such a
multiple. -/
def last_due_before (cron_step_minutes : Nat) (now : Int) : Int :=
  now - now % (cron_step_minutes * 60)

/-- Modelled from the spec: §4.1 defines
`next_due_after(cron_expression, reference_time)` as the earliest trigger
instant at or after `reference_time`; for a minute-step rule this is `now`
ceiled to a multiple of `step` minutes. -/
def next_due_after (cron_step_minutes : Nat) (now : Int) : Int :=
  if now % (cron_step_minutes * 60) = 0 then now
  else last_due_before cron_step_minutes now + cron_step_minutes * 60

/-- The per-file JSON of `file_status:{component_id}`
(`app/models/status.py`, `FileStatus`), minus the size field. -/
structure FileStatus where
  path : String
  last_modified : Option Int
  is_compliant : Bool
  next_expected_update : Int
  alert_message : Option String
deriving Repr, DecidableEq

/-- The filesystem metadata accessor: a map from path to modification
time, none when the path does not resolve to an existing file
(`os.path.exists` / `os.path.getmtime`). -/
def FsMtime := String → Option Int

/-- `check_file_compliance(file_path, expected_cron, grace_period_sec)`
from `app/services/file_checker.py`: a missing file is non-compliant with
an alert; otherwise the file is compliant iff its modification time is at
or after the last due instant minus the grace period. -/
def check_file_compliance (fs : FsMtime) (file_path : String)
    (cron_step_minutes grace_period_sec : Nat) (now : Int) : FileStatus :=
  match fs file_path with
  | none =>
    { path := file_path
      last_modified := none
      is_compliant := false
      next_expected_update := next_due_after cron_step_minutes now
      alert_message := some "文件不存在" }
  | some last_modified =>
    let last_expected := last_due_before cron_step_minutes now
    { path := file_path
      last_modified := some last_modified
      is_compliant :=
        decide (last_modified ≥ last_expected - (grace_period_sec : Int))
      next_expected_update := next_due_after cron_step_minutes now
      alert_message := none }

/-- Per-component section of `file_monitor_plan.yaml`. -/
structure FileComponentConfig where
  input_files : List FileSpec
  output_files : List FileSpec
deriving Repr, DecidableEq

/-- The JSON stored under `file_status:{component_id}`
(`app/models/status.py`, `FileMonitorStatus`), minus the timestamp. -/
structure FileMonitorStatus where
  component_id : String
  input_files : List FileStatus
  output_files : List FileStatus
  overall_file_health : Bool
deriving Repr, DecidableEq

/-- `update_file_status_for_component(component_id, component_config)`
from `app/services/file_checker.py`: check every input and output file and
AND the per-file compliance into `overall_file_health`. -/
def update_file_status_for_component (fs : FsMtime) (component_id : String)
    (component_config : FileComponentConfig) (now : Int) :
    FileMonitorStatus :=
  let input_files_status := component_config.input_files.map fun f =>
    check_file_compliance fs f.path f.cron_step_minutes f.grace_period_sec now
  let output_files_status := component_config.output_files.map fun f =>
    check_file_compliance fs f.path f.cron_step_minutes f.grace_period_sec now
  { component_id := component_id
    input_files := input_files_status
    output_files := output_files_status
    overall_file_health :=
      (input_files_status ++ output_files_status).all (·.is_compliant) }

/-! ## Dashboard (src/components/StatusBoard.vue) -/

/-- The `heartbeat` object of a component as the dashboard receives it
from `GET /api/v1/status` (`HeartbeatStatus` of `app/models/status.py`):
only the fields the dashboard reads. -/
structure HeartbeatView where
  status : String
deriving Repr, DecidableEq

/-- The `file_status` object as read by the dashboard. -/
structure FileStatusView where
  overall_file_health : Bool
deriving Repr, DecidableEq

/-- The `level_status` object as read by the dashboard. -/
structure LevelStatusView where
  compliant : Bool
deriving Repr, DecidableEq

/-- One element of the `components` array consumed by `StatusBoard.vue`;
any of the three record objects may be absent. -/
structure ComponentView where
  component_id : String
  heartbeat : Option HeartbeatView
  file_status : Option FileStatusView
  level_status : Option LevelStatusView
deriving Repr, DecidableEq

/-- `comp.heartbeat?.status === 'healthy'` in `getOverallHealthClass`:
false when the heartbeat object is absent. -/
def hbOk (comp : ComponentView) : Bool :=
  match comp.heartbeat with
  | some hb => hb.status == "healthy"
  | none => false

/-- `comp.file_status?.overall_file_health !== false`: true when the
file record is absent (optional chaining yields `undefined`, and
`undefined !== false`). -/
def fileOk (comp : ComponentView) : Bool :=
  match comp.file_status with
  | some fileRecord => fileRecord.overall_file_health
  | none => true

/-- `comp.level_status?.compliant !== false`: true when the level record
is absent. -/
def levelOk (comp : ComponentView) : Bool :=
  match comp.level_status with
  | some levelRecord => levelRecord.compliant
  | none => true

/-- `getOverallHealthClass(comp)` from `StatusBoard.vue` (lines 431-437):
`'health-good'` when the heartbeat is healthy, the file record is not
explicitly unhealthy and the level record is not explicitly non-compliant,
otherwise `'health-bad'`. -/
def getOverallHealthClass (comp : ComponentView) : String :=
  if hbOk comp && fileOk comp && levelOk comp then "health-good"
  else "health-bad"

/-- `getOverallHealthText(comp)` from `StatusBoard.vue`: the label shown
in the Health column and in CSV exports. -/
def getOverallHealthText (comp : ComponentView) : String :=
  if getOverallHealthClass comp == "health-good" then "Healthy"
  else "Critical"

/-- `healthyCount` from `StatusBoard.vue`: components whose overall class
is `'health-good'`. -/
def healthyCount (components : List ComponentView) : Nat :=
  (components.filter fun c => getOverallHealthClass c == "health-good").length

/-- The predicate of the `warningCount` filter in `StatusBoard.vue`:
`c.heartbeat?.status === 'warning' && getOverallHealthClass(c) !== 'health-good'`. -/
def warningPred (c : ComponentView) : Bool :=
  (match c.heartbeat with
   | some hb => hb.status == "warning"
   | none => false)
  && !(getOverallHealthClass c == "health-good")

/-- `warningCount` from `StatusBoard.vue`. -/
def warningCount (components : List ComponentView) : Nat :=
  (components.filter warningPred).length

/-- `criticalCount` from `StatusBoard.vue`: components whose overall class
is not `'health-good'`. -/
def criticalCount (components : List ComponentView) : Nat :=
  (components.filter fun c => !(getOverallHealthClass c == "health-good")).length

/-! ## Health-trend history (updateHistoryData) -/

/-- The plain snapshot `updateHistoryData` in `StatusBoard.vue` builds
from a component before scoring it. -/
structure PlainComponent where
  component_id : String
  heartbeat_status : Option String
  file_health : Option Bool
  level_compliant : Option Bool
deriving Repr, DecidableEq

/-- The score computed inside `updateHistoryData`: start at 0, add 40
when the heartbeat status is `'healthy'`, 30 when `file_health` is truthy
and 30 when `level_compliant` is truthy. -/
def healthScore (comp : PlainComponent) : Nat :=
  let score := 0
  let score := if comp.heartbeat_status == some "healthy" then score + 40 else score
  let score := if comp.file_health == some true then score + 30 else score
  let score := if comp.level_compliant == some true then score + 30 else score
  score

/-- One component's entry of `historyData` in `StatusBoard.vue`. -/
structure History where
  labels : List String
  data : List Nat
deriving Repr, DecidableEq

/-- The empty history created on a component's first appearance. -/
def emptyHistory : History := { labels := [], data := [] }

/-- One iteration of the `forEach` body of `updateHistoryData` for one
component: push the time label and the score, then drop the oldest point
when more than 20 are held (`labels.shift()` / `data.shift()`). -/
def pushHistory (h : History) (label : String) (score : Nat) : History :=
  let labels := h.labels ++ [label]
  let data := h.data ++ [score]
  if labels.length > 20 then
    { labels := labels.drop 1, data := data.drop 1 }
  else
    { labels := labels, data := data }

/-- A component's history after a sequence of recording ticks, each
carrying a time label and the component's snapshot at that tick. -/
def runHistory (events : List (String × PlainComponent)) : History :=
  events.foldl (fun h ev => pushHistory h ev.1 (healthScore ev.2)) emptyHistory

/-! ## Helper lemmas -/

/-- Splitting a list's length by a Boolean predicate. -/
theorem length_filter_add_length_filter_not {α : Type} (p : α → Bool)
    (l : List α) :
    (l.filter p).length + (l.filter fun a => !(p a)).length = l.length := by
  induction l with
  | nil => rfl
  | cons a l ih =>
    by_cases h : p a = true <;> simp [List.filter_cons, h] <;> omega

/-- Filtering by a stronger predicate keeps at most as many elements. -/
theorem length_filter_mono {α : Type} (p q : α → Bool)
    (h : ∀ a, p a = true → q a = true) (l : List α) :
    (l.filter p).length ≤ (l.filter q).length := by
  induction l with
  | nil => exact Nat.le_refl 0
  | cons a l ih =>
    rcases hp : p a with _ | _
    · rcases hq : q a with _ | _
      · simpa [List.filter_cons, hp, hq] using ih
      · simp [List.filter_cons, hp, hq]
        omega
    · have hq := h a hp
      simp [List.filter_cons, hp, hq]
      omega

/-- The history fold keeps both series capped at 20 and of equal length,
from any start state already satisfying the invariant. -/
theorem history_fold_inv (events : List (String × PlainComponent)) :
    ∀ h : History, h.labels.length ≤ 20 → h.data.length = h.labels.length →
      (events.foldl (fun acc ev => pushHistory acc ev.1 (healthScore ev.2))
          h).labels.length ≤ 20 ∧
      (events.foldl (fun acc ev => pushHistory acc ev.1 (healthScore ev.2))
          h).data.length =
        (events.foldl (fun acc ev => pushHistory acc ev.1 (healthScore ev.2))
          h).labels.length := by
  induction events with
  | nil => exact fun h h1 h2 => ⟨h1, h2⟩
  | cons ev evs ih =>
    intro h h1 h2
    simp only [List.foldl_cons]
    apply ih
    · simp only [pushHistory]
      split <;> simp_all
    · simp only [pushHistory]
      split <;> simp_all

/-! ## Claim theorems -/

/-- C2: for all times, when `start ≤ end` the window test is the same-day
containment `start ≤ check ≤ end`, and when `start > end` the window
crosses midnight and the test is `check ≥ start ∨ check ≤ end`; concretely
23:30 lies in the window 22:00–06:00 and 12:00 does not. -/
theorem in_range_spec :
    (∀ check_time start_time end_time : Nat,
      is_time_in_range check_time start_time end_time = true ↔
        (if start_time ≤ end_time then
          start_time ≤ check_time ∧ check_time ≤ end_time
        else
          check_time ≥ start_time ∨ check_time ≤ end_time)) ∧
    is_time_in_range 1410 1320 360 = true ∧
    is_time_in_range 720 1320 360 = false := by
  refine ⟨fun c s e => ?_, by decide, by decide⟩
  unfold is_time_in_range
  split <;> simp

/-- C3: the observed level is the heartbeat's declared level when present
and the sentinel 0 otherwise; compliance is exactly the equality of
observed and expected level; with no heartbeat record, compliance is false
for every expected level in the valid range [1,4]. -/
theorem level_compliance_spec (cid : String) (cfg : LevelComponentConfig)
    (hb : Option HeartbeatData) (t : Nat) (d : Nat) :
    (get_declared_level_from_heartbeat hb = some d →
      (update_level_status_for_component cid cfg hb t).observed_level = d) ∧
    (get_declared_level_from_heartbeat hb = none →
      (update_level_status_for_component cid cfg hb t).observed_level = 0) ∧
    ((update_level_status_for_component cid cfg hb t).compliant = true ↔
      (update_level_status_for_component cid cfg hb t).observed_level =
        (get_expected_level cfg t).1) ∧
    (hb = none → 1 ≤ (get_expected_level cfg t).1 →
      (get_expected_level cfg t).1 ≤ 4 →
      (update_level_status_for_component cid cfg hb t).compliant = false) := by
  refine ⟨fun hd => ?_, fun hd => ?_, ?_, fun hn h1 _h4 => ?_⟩
  · simp [update_level_status_for_component, hd]
  · simp [update_level_status_for_component, hd]
  · simp [update_level_status_for_component]
  · subst hn
    simp only [update_level_status_for_component,
      get_declared_level_from_heartbeat]
    simp only [beq_eq_false_iff_ne, ne_eq]
    omega

/-- C3 witness: a component declaring level 4 against expected level 4 is
compliant with observed level 4, and the same component with no heartbeat
record gets observed level 0 and is non-compliant. -/
theorem level_compliance_spec_witness :
    (update_level_status_for_component "trade_engine"
        ⟨[⟨555, 690, 4, some "continuous_trading"⟩], 1⟩
        (some ⟨"trade_engine", true, 0, some 4⟩) 570).observed_level = 4 ∧
    (update_level_status_for_component "trade_engine"
        ⟨[⟨555, 690, 4, some "continuous_trading"⟩], 1⟩
        none 570).observed_level = 0 ∧
    (update_level_status_for_component "trade_engine"
        ⟨[⟨555, 690, 4, some "continuous_trading"⟩], 1⟩
        none 570).compliant = false := by
  refine ⟨?_, ?_, ?_⟩
  · exact (level_compliance_spec "trade_engine"
      ⟨[⟨555, 690, 4, some "continuous_trading"⟩], 1⟩
      (some ⟨"trade_engine", true, 0, some 4⟩) 570 4).1 rfl
  · exact (level_compliance_spec "trade_engine"
      ⟨[⟨555, 690, 4, some "continuous_trading"⟩], 1⟩
      none 570 0).2.1 rfl
  · exact (level_compliance_spec "trade_engine"
      ⟨[⟨555, 690, 4, some "continuous_trading"⟩], 1⟩
      none 570 0).2.2.2 rfl (by decide) (by decide)

/-- C5: with Δ = now − observed_at, a dead process is critical regardless
of Δ; otherwise Δ ≤ nominal is healthy, nominal < Δ ≤ 2×nominal is
warning, Δ > 2×nominal is critical; no record is offline. -/
theorem heartbeat_classification_spec (hb : HeartbeatData) (now n : Int) :
    calculate_heartbeat_status none now n = .offline ∧
    (hb.process_exists = false →
      calculate_heartbeat_status (some hb) now n = .critical) ∧
    (hb.process_exists = true → now - hb.observed_at ≤ n →
      calculate_heartbeat_status (some hb) now n = .healthy) ∧
    (hb.process_exists = true → n < now - hb.observed_at →
      now - hb.observed_at ≤ 2 * n →
      calculate_heartbeat_status (some hb) now n = .warning) ∧
    (hb.process_exists = true → 0 ≤ n → 2 * n < now - hb.observed_at →
      calculate_heartbeat_status (some hb) now n = .critical) := by
  refine ⟨rfl, fun hpe => ?_, fun hpe h1 => ?_, fun hpe h1 h2 => ?_,
    fun hpe hn h1 => ?_⟩
  · simp [calculate_heartbeat_status, hpe]
  · simp only [calculate_heartbeat_status, hpe]
    rw [if_neg (by simp), if_pos h1]
  · simp only [calculate_heartbeat_status, hpe]
    rw [if_neg (by simp), if_neg (by omega), if_pos h2]
  · simp only [calculate_heartbeat_status, hpe]
    rw [if_neg (by simp), if_neg (by omega), if_neg (by omega)]

/-- C5 witness: with a 30-second nominal interval and last-seen at
time 100, the classification is healthy at Δ=20, warning at Δ=50,
critical at Δ=100, critical when the process is gone, and offline with no
record. -/
theorem heartbeat_classification_spec_witness :
    calculate_heartbeat_status none 120 30 = .offline ∧
    calculate_heartbeat_status
      (some ⟨"trade_engine", true, 100, some 4⟩) 120 30 = .healthy ∧
    calculate_heartbeat_status
      (some ⟨"trade_engine", true, 100, some 4⟩) 150 30 = .warning ∧
    calculate_heartbeat_status
      (some ⟨"trade_engine", true, 100, some 4⟩) 200 30 = .critical ∧
    calculate_heartbeat_status
      (some ⟨"trade_engine", false, 100, some 4⟩) 110 30 = .critical := by
  refine ⟨?_, ?_, ?_, ?_, ?_⟩
  · exact (heartbeat_classification_spec
      ⟨"trade_engine", true, 100, some 4⟩ 120 30).1
  · exact (heartbeat_classification_spec
      ⟨"trade_engine", true, 100, some 4⟩ 120 30).2.2.1 rfl (by decide)
  · exact (heartbeat_classification_spec
      ⟨"trade_engine", true, 100, some 4⟩ 150 30).2.2.2.1 rfl (by decide)
      (by decide)
  · exact (heartbeat_classification_spec
      ⟨"trade_engine", true, 100, some 4⟩ 200 30).2.2.2.2 rfl (by decide)
      (by decide)
  · exact (heartbeat_classification_spec
      ⟨"trade_engine", false, 100, some 4⟩ 110 30).2.1 rfl

/-- C4: an existing file with modification time m is compliant exactly
when m ≥ last-due-instant − grace; a modification time at or after `now`
(arbitrarily far in the future) is always compliant; with rule "every 5
minutes", grace 30s and now = 10:30:00, the last due instant is 10:30:00,
a file modified at 10:29:35 is compliant and one at 10:29:20 is not. -/
theorem file_compliance_spec (fs : FsMtime) (file_path : String)
    (step grace : Nat) (now m : Int) :
    (fs file_path = some m →
      ((check_file_compliance fs file_path step grace now).is_compliant
          = true ↔
        m ≥ last_due_before step now - (grace : Int))) ∧
    (fs file_path = some m → 0 < step → now ≤ m →
      (check_file_compliance fs file_path step grace now).is_compliant
        = true) ∧
    last_due_before 5 37800 = 37800 ∧
    (check_file_compliance (fun _ => some 37775) "market_data.csv" 5 30
      37800).is_compliant = true ∧
    (check_file_compliance (fun _ => some 37760) "market_data.csv" 5 30
      37800).is_compliant = false := by
  refine ⟨fun hm => ?_, fun hm hstep hfut => ?_, by decide, by decide,
    by decide⟩
  · simp [check_file_compliance, hm]
  · simp only [check_file_compliance, hm, decide_eq_true_eq]
    have hmod : 0 ≤ now % ((step : Int) * 60) :=
      Int.emod_nonneg now (by positivity)
    unfold last_due_before
    omega

/-- C4 witness: the compliance test applied to concrete files around the
10:30:00 due instant, and to a file whose modification time lies in the
future. -/
theorem file_compliance_spec_witness :
    ((check_file_compliance (fun _ => some 37775) "market_data.csv" 5 30
        37800).is_compliant = true ↔
      (37775 : Int) ≥ last_due_before 5 37800 - (30 : Int)) ∧
    (check_file_compliance (fun _ => some 99999999) "market_data.csv" 5 30
      37800).is_compliant = true := by
  constructor
  · exact (file_compliance_spec (fun _ => some 37775) "market_data.csv"
      5 30 37800 37775).1 rfl
  · exact (file_compliance_spec (fun _ => some 99999999) "market_data.csv"
      5 30 37800 99999999).2.1 rfl (by decide) (by decide)

/-- C7: `find_matching_schedule_rule` returns the first rule in
declaration order whose window contains now (later overlapping rules are
ignored), returns none when no rule matches, and in that case
`get_expected_level` falls back to the configured level with no rule
name. -/
theorem match_rule_first_spec (pre post rules : List LevelRule)
    (rule : LevelRule) (cfg : LevelComponentConfig) (t : Nat) :
    ((∀ r ∈ pre, rule_matches r t = false) → rule_matches rule t = true →
      find_matching_schedule_rule (pre ++ rule :: post) t = some rule) ∧
    ((∀ r ∈ rules, rule_matches r t = false) →
      find_matching_schedule_rule rules t = none) ∧
    (find_matching_schedule_rule cfg.rules t = none →
      get_expected_level cfg t = (cfg.non_trading_day_level, none)) := by
  refine ⟨fun hpre hmatch => ?_, fun hnone => ?_, fun hmiss => ?_⟩
  · induction pre with
    | nil => simp [find_matching_schedule_rule, hmatch]
    | cons r rest ih =>
      have hr : rule_matches r t = false := hpre r (List.mem_cons_self r rest)
      simp only [List.cons_append, find_matching_schedule_rule, hr,
        Bool.false_eq_true, if_false]
      exact ih fun r2 h2 => hpre r2 (List.mem_cons_of_mem r h2)
  · induction rules with
    | nil => rfl
    | cons r rest ih =>
      have hr : rule_matches r t = false := hnone r (List.mem_cons_self r rest)
      simp only [find_matching_schedule_rule, hr, Bool.false_eq_true,
        if_false]
      exact ih fun r2 h2 => hnone r2 (List.mem_cons_of_mem r h2)
  · simp [get_expected_level, hmiss]

/-- C7 witness: two overlapping rules both containing 09:30 — the
first-declared one (09:15–11:30, level 4) wins over the second
(09:00–12:00, level 2); at 13:00 no rule matches and the fallback level 1
is used with no rule name. -/
theorem match_rule_first_spec_witness :
    find_matching_schedule_rule
      [⟨555, 690, 4, some "morning"⟩, ⟨540, 720, 2, some "wide"⟩] 570 =
      some ⟨555, 690, 4, some "morning"⟩ ∧
    get_expected_level
      ⟨[⟨555, 690, 4, some "morning"⟩, ⟨540, 720, 2, some "wide"⟩], 1⟩ 780 =
      (1, none) := by
  constructor
  · exact (match_rule_first_spec [] [⟨540, 720, 2, some "wide"⟩] []
      ⟨555, 690, 4, some "morning"⟩ ⟨[], 1⟩ 570).1 (by simp) (by decide)
  · exact (match_rule_first_spec [] [] [] ⟨555, 690, 4, some "morning"⟩
      ⟨[⟨555, 690, 4, some "morning"⟩, ⟨540, 720, 2, some "wide"⟩], 1⟩
      780).2.2
      ((match_rule_first_spec [] []
        [⟨555, 690, 4, some "morning"⟩, ⟨540, 720, 2, some "wide"⟩]
        ⟨555, 690, 4, some "morning"⟩ ⟨[], 1⟩ 780).2.1 (by decide))

/-- C8: a FileSpec whose path does not resolve to an existing file yields
a result with `is_compliant = false`, an explicit alert string and no
`last_modified`; and the per-component tick computes every file's result
independently — the result lists keep one entry per configured file and
the i-th entry is exactly the check of the i-th FileSpec. -/
theorem missing_file_spec (fs : FsMtime) (file_path : String)
    (step grace : Nat) (now : Int) (cid : String)
    (cfg : FileComponentConfig) :
    (fs file_path = none →
      (check_file_compliance fs file_path step grace now).is_compliant
          = false ∧
      (check_file_compliance fs file_path step grace now).alert_message
          = some "文件不存在" ∧
      (check_file_compliance fs file_path step grace now).last_modified
          = none) ∧
    ((update_file_status_for_component fs cid cfg now).input_files.length
        = cfg.input_files.length ∧
     (update_file_status_for_component fs cid cfg now).output_files.length
        = cfg.output_files.length) ∧
    (∀ i : Nat,
      (update_file_status_for_component fs cid cfg now).input_files[i]? =
        (cfg.input_files[i]?).map (fun f : FileSpec =>
          check_file_compliance fs f.path f.cron_step_minutes
            f.grace_period_sec now) ∧
      (update_file_status_for_component fs cid cfg now).output_files[i]? =
        (cfg.output_files[i]?).map (fun f : FileSpec =>
          check_file_compliance fs f.path f.cron_step_minutes
            f.grace_period_sec now)) := by
  refine ⟨fun hmiss => ?_, ⟨?_, ?_⟩, fun i => ⟨?_, ?_⟩⟩
  · simp [check_file_compliance, hmiss]
  · simp [update_file_status_for_component]
  · simp [update_file_status_for_component]
  · simp [update_file_status_for_component]
  · simp [update_file_status_for_component]

/-- C8 witness: with one missing input file and one fresh output file,
the missing file is flagged non-compliant with the alert and no mtime,
while the other file's result is still computed (compliant) in the same
tick. -/
theorem missing_file_spec_witness :
    (check_file_compliance
        (fun p => if p = "gone.csv" then none else some 37775)
        "gone.csv" 5 30 37800).is_compliant = false ∧
    (check_file_compliance
        (fun p => if p = "gone.csv" then none else some 37775)
        "gone.csv" 5 30 37800).alert_message = some "文件不存在" ∧
    (check_file_compliance
        (fun p => if p = "gone.csv" then none else some 37775)
        "gone.csv" 5 30 37800).last_modified = none ∧
    (update_file_status_for_component
        (fun p => if p = "gone.csv" then none else some 37775)
        "trade_engine"
        ⟨[⟨"gone.csv", 5, 30⟩], [⟨"trade_engine.log", 5, 30⟩]⟩
        37800).output_files[0]? =
      some (check_file_compliance
        (fun p => if p = "gone.csv" then none else some 37775)
        "trade_engine.log" 5 30 37800) := by
  refine ⟨?_, ?_, ?_, ?_⟩
  · exact ((missing_file_spec
      (fun p => if p = "gone.csv" then none else some 37775)
      "gone.csv" 5 30 37800 "trade_engine" ⟨[], []⟩).1 (by simp)).1
  · exact ((missing_file_spec
      (fun p => if p = "gone.csv" then none else some 37775)
      "gone.csv" 5 30 37800 "trade_engine" ⟨[], []⟩).1 (by simp)).2.1
  · exact ((missing_file_spec
      (fun p => if p = "gone.csv" then none else some 37775)
      "gone.csv" 5 30 37800 "trade_engine" ⟨[], []⟩).1 (by simp)).2.2
  · have h := ((missing_file_spec
      (fun p => if p = "gone.csv" then none else some 37775)
      "gone.csv" 5 30 37800 "trade_engine"
      ⟨[⟨"gone.csv", 5, 30⟩], [⟨"trade_engine.log", 5, 30⟩]⟩).2.2 0).2
    simpa using h

/-- C1 counterexample: the dashboard's verdict is not graded worst-of — a
component with heartbeat healthy, files `overall_ok=false` and level
compliant does NOT get a distinct `warning` verdict: it gets
`'health-bad'` (shown as "Critical"), the very same verdict as a
component with no heartbeat at all. -/
theorem overall_worst_of_counterexample :
    getOverallHealthClass
      ⟨"trade_engine", some ⟨"healthy"⟩, some ⟨false⟩, some ⟨true⟩⟩ =
      "health-bad" ∧
    getOverallHealthClass ⟨"risk_checker", none, none, none⟩ =
      "health-bad" ∧
    getOverallHealthText
      ⟨"trade_engine", some ⟨"healthy"⟩, some ⟨false⟩, some ⟨true⟩⟩ =
      "Critical" := by
  refine ⟨?_, ?_, ?_⟩ <;> rfl

/-- C1 (amended): the overall verdict is two-valued, not worst-of graded:
it is `'health-bad'` exactly when the heartbeat is missing or not
healthy, or a file record is present with `overall_ok` false, or a level
record is present with `compliant` false; a component with heartbeat
healthy, files `overall_ok=false` and level compliant gets
`'health-bad'`, the same verdict as a missing-heartbeat component. -/
theorem overall_verdict_spec (cid : String) (comp : ComponentView)
    (hb : HeartbeatView) (f : FileStatusView) (l : LevelStatusView) :
    (getOverallHealthClass comp = "health-bad" ↔
      ¬ ((∃ h, comp.heartbeat = some h ∧ h.status = "healthy") ∧
         (∀ fr, comp.file_status = some fr →
            fr.overall_file_health = true) ∧
         (∀ lr, comp.level_status = some lr → lr.compliant = true))) ∧
    (hb.status = "healthy" → f.overall_file_health = false →
      getOverallHealthClass ⟨cid, some hb, some f, some l⟩ =
        "health-bad" ∧
      getOverallHealthClass ⟨cid, some hb, some f, some l⟩ =
        getOverallHealthClass ⟨cid, none, none, none⟩) := by
  have hne : ("health-good" : String) ≠ "health-bad" := by decide
  have hgood : ∀ c : ComponentView,
      (hbOk c && fileOk c && levelOk c) = true ↔
        ((∃ h, c.heartbeat = some h ∧ h.status = "healthy") ∧
         (∀ fr, c.file_status = some fr →
            fr.overall_file_health = true) ∧
         (∀ lr, c.level_status = some lr → lr.compliant = true)) := by
    intro c
    rcases c with ⟨cid2, hbO, fO, lO⟩
    cases hbO <;> cases fO <;> cases lO <;>
      simp [hbOk, fileOk, levelOk, and_assoc]
  refine ⟨⟨fun heq hP => ?_, fun hnP => ?_⟩, fun hhb hf => ⟨?_, ?_⟩⟩
  · have hc := (hgood comp).mpr hP
    unfold getOverallHealthClass at heq
    rw [if_pos hc] at heq
    exact hne heq
  · have hc : ¬((hbOk comp && fileOk comp && levelOk comp) = true) :=
      fun hc => hnP ((hgood comp).mp hc)
    unfold getOverallHealthClass
    rw [if_neg hc]
  · simp [getOverallHealthClass, hbOk, fileOk, levelOk, hhb, hf]
  · simp [getOverallHealthClass, hbOk, fileOk, levelOk, hhb, hf]

/-- C1 witness: the amended claim at a concrete component — heartbeat
healthy, files unhealthy, level compliant gives `'health-bad'`, equal to
the verdict of a component with no records at all. -/
theorem overall_verdict_spec_witness :
    getOverallHealthClass
      ⟨"comp_w", some ⟨"healthy"⟩, some ⟨false⟩, some ⟨true⟩⟩ =
      "health-bad" ∧
    getOverallHealthClass
      ⟨"comp_w", some ⟨"healthy"⟩, some ⟨false⟩, some ⟨true⟩⟩ =
      getOverallHealthClass ⟨"comp_w", none, none, none⟩ :=
  (overall_verdict_spec "comp_w" ⟨"comp_w", none, none, none⟩
    ⟨"healthy"⟩ ⟨false⟩ ⟨true⟩).2 rfl rfl

/-- C6 counterexample: a component whose heartbeat is healthy but whose
file and level records are both absent is NOT classified by a distinct
`unknown` verdict: the dashboard gives it `'health-good'` with the text
"Healthy", identical to a fully healthy component. -/
theorem healthy_no_records_counterexample :
    getOverallHealthClass
      ⟨"market_data_feeder", some ⟨"healthy"⟩, none, none⟩ =
      "health-good" ∧
    getOverallHealthText
      ⟨"market_data_feeder", some ⟨"healthy"⟩, none, none⟩ = "Healthy" := by
  refine ⟨?_, ?_⟩ <;> rfl

/-- C6 (amended): a component with healthy heartbeat and both data
records absent is classified `'health-good'` ("Healthy"), the same
verdict as a component whose records are present and healthy — there is
no distinct `unknown` verdict; the absence of the records is never
reported as an error (the classifier is total and only ever emits
`'health-good'` or `'health-bad'`). -/
theorem healthy_no_records_spec (cid : String) (hb : HeartbeatView) :
    hb.status = "healthy" →
    getOverallHealthClass ⟨cid, some hb, none, none⟩ = "health-good" ∧
    getOverallHealthText ⟨cid, some hb, none, none⟩ = "Healthy" ∧
    getOverallHealthClass ⟨cid, some hb, none, none⟩ =
      getOverallHealthClass ⟨cid, some hb, some ⟨true⟩, some ⟨true⟩⟩ := by
  intro h
  refine ⟨?_, ?_, ?_⟩ <;>
    simp [getOverallHealthClass, getOverallHealthText, hbOk, fileOk,
      levelOk, h]

/-- C6 witness: the amended claim at a concrete component. -/
theorem healthy_no_records_spec_witness :
    getOverallHealthClass
      ⟨"risk_checker", some ⟨"healthy"⟩, none, none⟩ = "health-good" ∧
    getOverallHealthText
      ⟨"risk_checker", some ⟨"healthy"⟩, none, none⟩ = "Healthy" ∧
    getOverallHealthClass ⟨"risk_checker", some ⟨"healthy"⟩, none, none⟩ =
      getOverallHealthClass
        ⟨"risk_checker", some ⟨"healthy"⟩, some ⟨true⟩, some ⟨true⟩⟩ :=
  healthy_no_records_spec "risk_checker" ⟨"healthy"⟩ rfl

/-- C9: the healthy and critical tallies partition the fleet — every
component is counted exactly once as healthy or as critical — and every
warning-counted component also satisfies the critical filter, so the
warning tally overlaps the critical tally instead of forming a disjoint
class. -/
theorem fleet_counts_spec (components : List ComponentView) :
    healthyCount components + criticalCount components =
      components.length ∧
    (∀ c ∈ components, warningPred c = true →
      getOverallHealthClass c ≠ "health-good") ∧
    warningCount components ≤ criticalCount components := by
  refine ⟨?_, fun c _ hc => ?_, ?_⟩
  · exact length_filter_add_length_filter_not
      (fun c => getOverallHealthClass c == "health-good") components
  · unfold warningPred at hc
    have h2 := (Bool.and_eq_true _ _ |>.mp hc).2
    simpa using h2
  · exact length_filter_mono warningPred
      (fun c => !(getOverallHealthClass c == "health-good"))
      (fun c hc => by
        unfold warningPred at hc
        exact (Bool.and_eq_true _ _ |>.mp hc).2)
      components

/-- C9 witness: a fleet of one healthy, one critical and one
warning-while-unhealthy component — the tallies are 1 healthy + 2
critical = 3 total, and the warning component is counted critical too. -/
theorem fleet_counts_spec_witness :
    healthyCount
      [⟨"a", some ⟨"healthy"⟩, none, none⟩,
       ⟨"b", none, none, none⟩,
       ⟨"c", some ⟨"warning"⟩, none, none⟩] +
    criticalCount
      [⟨"a", some ⟨"healthy"⟩, none, none⟩,
       ⟨"b", none, none, none⟩,
       ⟨"c", some ⟨"warning"⟩, none, none⟩] = 3 ∧
    getOverallHealthClass ⟨"c", some ⟨"warning"⟩, none, none⟩ ≠
      "health-good" := by
  constructor
  · exact (fleet_counts_spec
      [⟨"a", some ⟨"healthy"⟩, none, none⟩,
       ⟨"b", none, none, none⟩,
       ⟨"c", some ⟨"warning"⟩, none, none⟩]).1
  · exact (fleet_counts_spec
      [⟨"c", some ⟨"warning"⟩, none, none⟩]).2.1
      ⟨"c", some ⟨"warning"⟩, none, none⟩ (by simp) (by decide)

/-- C10: the recorded health score is
40·[heartbeat healthy] + 30·[files healthy] + 30·[level compliant], so it
always lies in {0, 30, 40, 60, 70, 100}; and a history built by the
recorder from empty never holds more than 20 points in either series. -/
theorem history_spec (comp : PlainComponent)
    (events : List (String × PlainComponent)) :
    healthScore comp =
      (if comp.heartbeat_status == some "healthy" then 40 else 0) +
      (if comp.file_health == some true then 30 else 0) +
      (if comp.level_compliant == some true then 30 else 0) ∧
    healthScore comp ∈ [0, 30, 40, 60, 70, 100] ∧
    (runHistory events).labels.length ≤ 20 ∧
    (runHistory events).data.length ≤ 20 := by
  have hrun := history_fold_inv events emptyHistory
    (by simp [emptyHistory]) (by simp [emptyHistory])
  refine ⟨?_, ?_, hrun.1, ?_⟩
  · simp only [healthScore]
    split_ifs <;> rfl
  · simp only [healthScore]
    split_ifs <;> decide
  · have h1 := hrun.1
    have h2 := hrun.2
    unfold runHistory
    omega

end Surveillance
